import Mathlib

/-
Verification of the koto runtime value core (src/runtime/src/value.rs and
src/runtime/src/meta_map.rs) as a shallow embedding.

Modelling conventions:
- f64 floats are modelled by KFloat: either NaN or an exact finite value in
  the rationals.  The claims under study only distinguish NaN from ordered
  finite values; IEEE details that no claim touches (signed zero, infinities,
  NaN payloads) are abstracted into this picture.
- Reference-counted allocations whose equality is pointer identity
  (Function, and the payloads of BuiltinFunction, BuiltinValue, For, While)
  are modelled by a Nat allocation id; Rc pointer equality becomes id equality.
- Rc of RefCell of Value (the Ref variant) is modelled as a constructor holding
  the current content of the cell: all functions under study read each cell
  exactly once, so the snapshot model is faithful for them.
- ValueList and ValueMap are not among the provided sources; following the
  spec (equality is structural over the shared contents, the meta table is not
  compared) a list payload is a List of Values and a map payload is an
  insertion-ordered List of key-value pairs, compared elementwise.
- The panic branches of the ordering implementations are modelled by the error
  case of Except; the text the source interpolates into the panic message is
  abstracted to a fixed message, since no claim is about that text.
-/

namespace Koto

/-- Model of a 64-bit (or 32-bit, for Vec4 components) IEEE float as used by
the runtime: NaN, or a finite value represented exactly as a rational. -/
inductive KFloat where
  | nan : KFloat
  | fin : ℚ → KFloat
deriving DecidableEq, Repr

/-- Embeds f64::is_nan. -/
def KFloat.isNan : KFloat → Bool
  | .nan => true
  | .fin _ => false

/-- Standard numeric comparison on the finite values. -/
def qcmp (a b : ℚ) : Ordering :=
  if a < b then .lt else if a = b then .eq else .gt

/-- Embeds IEEE float equality (the float == operator): NaN is equal to
nothing, finite values compare by value. -/
def feq : KFloat → KFloat → Bool
  | .fin a, .fin b => a == b
  | _, _ => false

/-- Embeds f64::partial_cmp: none when either side is NaN, standard numeric
comparison otherwise. -/
def fcmpOpt : KFloat → KFloat → Option Ordering
  | .fin a, .fin b => some (qcmp a b)
  | _, _ => none

/-- Embeds the NaN-resolving total comparison of the Number arm of cmp in
value.rs lines 115-120.  The four arms are the four cases of the pair of
is_nan tests there; in the both-finite arm the unwrap of partial_cmp in the
source is total and equals qcmp. -/
def nanTotalCmp : KFloat → KFloat → Ordering
  | .nan, .nan => .eq
  | .fin _, .nan => .lt
  | .nan, .fin _ => .gt
  | .fin a, .fin b => qcmp a b

/-- Modelled from the spec: the Vec4 library type, four floats, from the
koto_parser crate whose source is not among the provided files. -/
structure Vec4 where
  x : KFloat
  y : KFloat
  z : KFloat
  w : KFloat
deriving DecidableEq, Repr

/-- Modelled from the spec: the Vec4 library equality, derived componentwise
float equality. -/
def vec4Eq (a b : Vec4) : Bool :=
  feq a.x b.x && feq a.y b.y && feq a.z b.z && feq a.w b.w

/-- One step of a derived lexicographic comparison: move on only when the
current component compares equal. -/
def lexStep : Option Ordering → Option Ordering → Option Ordering
  | some .eq, rest => rest
  | r, _ => r

/-- Modelled from the spec: the Vec4 library order, the derived componentwise
(lexicographic) order over the four float components. -/
def vec4CmpOpt (a b : Vec4) : Option Ordering :=
  lexStep (fcmpOpt a.x b.x)
    (lexStep (fcmpOpt a.y b.y)
      (lexStep (fcmpOpt a.z b.z) (fcmpOpt a.w b.w)))

end Koto

/-- Embeds the Value enum of value.rs lines 7-24.  Identity-compared shared
payloads are modelled by Nat allocation ids; the Ref cell holds its current
content; list and map payloads follow the spec as noted at the top. -/
inductive Value where
  | Empty : Value
  | Bool (b : Bool) : Value
  | Number (n : Koto.KFloat) : Value
  | Vec4 (v : Koto.Vec4) : Value
  | List (xs : List Value) : Value
  | Range (start stop : Int) : Value
  | IndexRange (start : Nat) (stop : Option Nat) : Value
  | Map (entries : List (Value × Value)) : Value
  | Str (s : String) : Value
  | Ref (cell : Value) : Value
  | Function (allocId : Nat) : Value
  | BuiltinFunction (allocId : Nat) (isInstanceFn : Bool) : Value
  | BuiltinValue (allocId : Nat) : Value
  | For (allocId : Nat) : Value
  | While (allocId : Nat) : Value

namespace Koto

/-- True exactly on the Ref variant. -/
def isRef : Value → Bool
  | .Ref _ => true
  | _ => false

/-- The variant tag of a Value, embedding std::mem::discriminant. -/
def discrim : Value → Nat
  | .Empty => 0
  | .Bool _ => 1
  | .Number _ => 2
  | .Vec4 _ => 3
  | .List _ => 4
  | .Range _ _ => 5
  | .IndexRange _ _ => 6
  | .Map _ => 7
  | .Str _ => 8
  | .Ref _ => 9
  | .Function _ => 10
  | .BuiltinFunction _ _ => 11
  | .BuiltinValue _ => 12
  | .For _ => 13
  | .While _ => 14

/-- Embeds deref_value of value.rs lines 202-209: a Ref yields a clone of the
content of its cell, anything else is cloned unchanged.  Note the source does
not recurse. -/
def deref_value : Value → Value
  | .Ref r => r
  | v => v

/-- Embeds make_reference of value.rs lines 211-219: an existing Ref is
returned unchanged with flag false, any other value is wrapped in a fresh
cell with flag true. -/
def make_reference : Value → Value × Bool
  | .Ref r => (.Ref r, false)
  | v => (.Ref v, true)

/-- Embeds values_have_matching_type of value.rs lines 190-200: each side has
at most one Ref layer removed (one borrow, no recursion) and then the
discriminants are compared. -/
def values_have_matching_type : Value → Value → Bool
  | .Ref a, .Ref b => discrim a == discrim b
  | .Ref a, b => discrim a == discrim b
  | a, .Ref b => discrim a == discrim b
  | a, b => discrim a == discrim b

mutual

/-- Embeds the PartialEq implementation for Value, value.rs lines 76-94: the
arms appear in source order; a pair of Refs compares cell contents, a Ref on
one side only is unwrapped one level and compared again (which recurses),
Functions compare by Rc pointer identity, and every unmatched pair (including
same-variant pairs such as two Empty values) falls to the final false arm. -/
def valueEq : Value → Value → Bool
  | .Number a, .Number b => feq a b
  | .Vec4 a, .Vec4 b => vec4Eq a b
  | .Bool a, .Bool b => a == b
  | .Str a, .Str b => a == b
  | .List a, .List b => listEq a b
  | .Map a, .Map b => mapEq a b
  | .Ref a, .Ref b => valueEq a b
  | .Ref a, b => valueEq a b
  | a, .Ref b => valueEq a b
  | .Function a, .Function b => a == b
  | _, _ => false

/-- Elementwise equality of list payloads (ValueList is absent from the
provided sources; modelled from the spec as structural contents equality). -/
def listEq : List Value → List Value → Bool
  | [], [] => true
  | x :: xs, y :: ys => valueEq x y && listEq xs ys
  | _, _ => false

/-- Elementwise key-value equality of map payloads (ValueMap is absent from
the provided sources; modelled from the spec as structural contents equality,
with the attached meta table not taking part in equality). -/
def mapEq : List (Value × Value) → List (Value × Value) → Bool
  | [], [] => true
  | (k, v) :: xs, (l, w) :: ys => valueEq k l && valueEq v w && mapEq xs ys
  | _, _ => false

end

/-- Embeds the PartialOrd implementation for Value, value.rs lines 97-108:
Numbers, Vec4s and Strs delegate, every other pair panics (modelled as the
error case). -/
def valueCmpOpt : Value → Value → Except String (Option Ordering)
  | .Number a, .Number b => .ok (fcmpOpt a b)
  | .Vec4 a, .Vec4 b => .ok (vec4CmpOpt a b)
  | .Str a, .Str b => .ok (some (compare a b))
  | _, _ => .error "partial_cmp unsupported"

/-- Embeds the Ord implementation for Value, value.rs lines 110-125: Numbers
use the NaN-resolving total comparison, Strs compare lexicographically, and
every other pair (including two Vec4s) panics (modelled as the error case). -/
def valueCmpTotal : Value → Value → Except String Ordering
  | .Number a, .Number b => .ok (nanTotalCmp a b)
  | .Str a, .Str b => .ok (compare a b)
  | _, _ => .error "cmp unsupported"

/-- True exactly on the variants the spec lists as ordered: Number, Vec4 and
Str. -/
def isOrderedVariant : Value → Bool
  | .Number _ => true
  | .Vec4 _ => true
  | .Str _ => true
  | _ => false

/-- Embeds the BinaryOp enum of meta_map.rs lines 14-28. -/
inductive BinaryOp where
  | Add | Subtract | Multiply | Divide | Modulo
  | Less | LessOrEqual | Greater | GreaterOrEqual
  | Equal | NotEqual | Index
deriving DecidableEq, Repr

/-- Embeds the UnaryOp enum of meta_map.rs lines 55-59. -/
inductive UnaryOp where
  | Negate | Display
deriving DecidableEq, Repr

/-- Embeds the MetaKey enum of meta_map.rs lines 76-85; ValueString is
modelled as String; the key the source calls Type is named TypeKey because
Type is a reserved word here. -/
inductive MetaKey where
  | BinaryOp (op : BinaryOp)
  | UnaryOp (op : UnaryOp)
  | Test (name : String)
  | Tests
  | PreTest
  | PostTest
  | TypeKey
deriving DecidableEq, Repr

/-- Modelled from the spec and the exhaustive match of meta_id_to_key: the
MetaKeyId enum of the koto_parser crate, whose source is not among the
provided files; the match in meta_map.rs lines 102-126 fixes exactly these
variants (the one the source calls Type is named TypeKey here). -/
inductive MetaKeyId where
  | Add | Subtract | Multiply | Divide | Modulo
  | Less | LessOrEqual | Greater | GreaterOrEqual
  | Equal | NotEqual | Index
  | Negate | Display
  | Tests | Test | PreTest | PostTest
  | TypeKey
  | Invalid
deriving DecidableEq, Repr

/-- Embeds meta_id_to_key of meta_map.rs lines 99-129: the named-test case
demands a name (error when it is missing), the sentinel Invalid id is an
error, and every other id maps to its MetaKey whatever the name argument. -/
def meta_id_to_key : MetaKeyId → Option String → Except String MetaKey
  | .Add, _ => .ok (.BinaryOp .Add)
  | .Subtract, _ => .ok (.BinaryOp .Subtract)
  | .Multiply, _ => .ok (.BinaryOp .Multiply)
  | .Divide, _ => .ok (.BinaryOp .Divide)
  | .Modulo, _ => .ok (.BinaryOp .Modulo)
  | .Less, _ => .ok (.BinaryOp .Less)
  | .LessOrEqual, _ => .ok (.BinaryOp .LessOrEqual)
  | .Greater, _ => .ok (.BinaryOp .Greater)
  | .GreaterOrEqual, _ => .ok (.BinaryOp .GreaterOrEqual)
  | .Equal, _ => .ok (.BinaryOp .Equal)
  | .NotEqual, _ => .ok (.BinaryOp .NotEqual)
  | .Index, _ => .ok (.BinaryOp .Index)
  | .Negate, _ => .ok (.UnaryOp .Negate)
  | .Display, _ => .ok (.UnaryOp .Display)
  | .Tests, _ => .ok .Tests
  | .Test, some name => .ok (.Test name)
  | .Test, none => .error "Missing name for test"
  | .PreTest, _ => .ok .PreTest
  | .PostTest, _ => .ok .PostTest
  | .TypeKey, _ => .ok .TypeKey
  | .Invalid, _ => .error "Invalid MetaKeyId"

/-- Iterated Ref wrapping: n nested cells around a value. -/
def refNest : Nat → Value → Value
  | 0, v => v
  | n + 1, v => Value.Ref (refNest n v)

/-- Full recursive unwrapping of Ref wrappers, written from the words of the
spec (the spec says deref_value and the matching-type check reach the fully
dereferenced value); stated here only to compare against the source
functions, which do not recurse. -/
def specFullDeref : Value → Value
  | .Ref r => specFullDeref r
  | v => v

mutual

/-- The diagonal of the source equality: characterizes the Values that
compare equal to themselves.  True on Bool, Str and Function values, on
finite Numbers, on Vec4s with four finite components, on a Ref whose content
is self-equal, and on List and Map payloads all of whose members are
self-equal; false on Empty, Range, IndexRange, BuiltinFunction, BuiltinValue,
For, While and on any NaN-holding Number or Vec4. -/
def selfEqOK : Value → Bool
  | .Empty => false
  | .Bool _ => true
  | .Number n => !n.isNan
  | .Vec4 v => !v.x.isNan && !v.y.isNan && !v.z.isNan && !v.w.isNan
  | .List xs => listSelfEq xs
  | .Range _ _ => false
  | .IndexRange _ _ => false
  | .Map xs => mapSelfEq xs
  | .Str _ => true
  | .Ref v => selfEqOK v
  | .Function _ => true
  | .BuiltinFunction _ _ => false
  | .BuiltinValue _ => false
  | .For _ => false
  | .While _ => false

/-- All members of a list payload are self-equal. -/
def listSelfEq : List Value → Bool
  | [] => true
  | x :: xs => selfEqOK x && listSelfEq xs

/-- All keys and values of a map payload are self-equal. -/
def mapSelfEq : List (Value × Value) → Bool
  | [] => true
  | (k, v) :: xs => selfEqOK k && selfEqOK v && mapSelfEq xs

end

/-- A float equals itself under IEEE equality exactly when it is not NaN. -/
theorem feq_self (a : KFloat) : feq a a = !a.isNan := by
  cases a <;> simp [feq, KFloat.isNan]

mutual

/-- The diagonal of the source equality agrees with the selfEqOK
characterization. -/
theorem valueEq_self (v : Value) : valueEq v v = selfEqOK v := by
  cases v with
  | Empty => simp [valueEq, selfEqOK]
  | Bool b => simp [valueEq, selfEqOK]
  | Number n => simp [valueEq, selfEqOK, feq_self]
  | Vec4 v => simp [valueEq, selfEqOK, vec4Eq, feq_self]
  | List xs => simp [valueEq, selfEqOK, listEq_self xs]
  | Range a b => simp [valueEq, selfEqOK]
  | IndexRange a b => simp [valueEq, selfEqOK]
  | Map xs => simp [valueEq, selfEqOK, mapEq_self xs]
  | Str s => simp [valueEq, selfEqOK]
  | Ref w => simp [valueEq, selfEqOK, valueEq_self w]
  | Function n => simp [valueEq, selfEqOK]
  | BuiltinFunction n b => simp [valueEq, selfEqOK]
  | BuiltinValue n => simp [valueEq, selfEqOK]
  | For n => simp [valueEq, selfEqOK]
  | While n => simp [valueEq, selfEqOK]

/-- The diagonal of list payload equality agrees with listSelfEq. -/
theorem listEq_self (xs : List Value) : listEq xs xs = listSelfEq xs := by
  cases xs with
  | nil => simp [listEq, listSelfEq]
  | cons x xs => simp [listEq, listSelfEq, valueEq_self x, listEq_self xs]

/-- The diagonal of map payload equality agrees with mapSelfEq. -/
theorem mapEq_self (xs : List (Value × Value)) : mapEq xs xs = mapSelfEq xs := by
  cases xs with
  | nil => simp [mapEq, mapSelfEq]
  | cons p xs =>
    cases p with
    | mk k v => simp [mapEq, mapSelfEq, valueEq_self k, valueEq_self v, mapEq_self xs]

end

mutual

/-- A Ref wrapper on the left is transparent to the source equality. -/
theorem valueEq_ref_left (a b : Value) :
    valueEq (Value.Ref a) b = valueEq a b := by
  cases b with
  | Ref b0 => rw [valueEq_ref_right a b0]; simp [valueEq]
  | Empty => simp [valueEq]
  | Bool c => simp [valueEq]
  | Number n => simp [valueEq]
  | Vec4 v => simp [valueEq]
  | List xs => simp [valueEq]
  | Range x y => simp [valueEq]
  | IndexRange x y => simp [valueEq]
  | Map xs => simp [valueEq]
  | Str s => simp [valueEq]
  | Function n => simp [valueEq]
  | BuiltinFunction n c => simp [valueEq]
  | BuiltinValue n => simp [valueEq]
  | For n => simp [valueEq]
  | While n => simp [valueEq]

/-- A Ref wrapper on the right is transparent to the source equality. -/
theorem valueEq_ref_right (a b : Value) :
    valueEq a (Value.Ref b) = valueEq a b := by
  cases a with
  | Ref a0 => rw [valueEq_ref_left a0 b]; simp [valueEq]
  | Empty => simp [valueEq]
  | Bool c => simp [valueEq]
  | Number n => simp [valueEq]
  | Vec4 v => simp [valueEq]
  | List xs => simp [valueEq]
  | Range x y => simp [valueEq]
  | IndexRange x y => simp [valueEq]
  | Map xs => simp [valueEq]
  | Str s => simp [valueEq]
  | Function n => simp [valueEq]
  | BuiltinFunction n c => simp [valueEq]
  | BuiltinValue n => simp [valueEq]
  | For n => simp [valueEq]
  | While n => simp [valueEq]

end

/-- C1 counterexample: deref_value does not unwrap recursively.  Applied to a
Ref holding a Ref holding Empty it returns a value that is still a Ref
variant, refuting the claim that its result is never a Ref. -/
theorem c1_deref_not_recursive :
    deref_value (Value.Ref (Value.Ref Value.Empty)) = Value.Ref Value.Empty ∧
    isRef (deref_value (Value.Ref (Value.Ref Value.Empty))) = true :=
  ⟨rfl, rfl⟩

/-- C1 (amended): deref_value removes exactly one Ref wrapper (a Ref yields
the content of its cell, any other value is returned unchanged) and it is a
total function; its result is a non-Ref variant provided the input does not
directly wrap another Ref, which is the no-directly-nested-Ref invariant the
spec states for this constructor. -/
theorem c1_deref_single_unwrap (v : Value)
    (h : ∀ w, v = Value.Ref w → isRef w = false) :
    isRef (deref_value v) = false ∧ deref_value (Value.Ref v) = v := by
  refine ⟨?_, rfl⟩
  cases v with
  | Ref w => exact h w rfl
  | Empty => rfl
  | Bool b => rfl
  | Number n => rfl
  | Vec4 v => rfl
  | List xs => rfl
  | Range x y => rfl
  | IndexRange x y => rfl
  | Map xs => rfl
  | Str s => rfl
  | Function n => rfl
  | BuiltinFunction n b => rfl
  | BuiltinValue n => rfl
  | For n => rfl
  | While n => rfl

/-- Witness for the C1 theorem at the concrete input Ref Empty, whose content
is not a Ref. -/
theorem c1_deref_single_unwrap_witness :
    isRef (deref_value (Value.Ref Value.Empty)) = false ∧
    deref_value (Value.Ref (Value.Ref Value.Empty)) = Value.Ref Value.Empty :=
  c1_deref_single_unwrap (Value.Ref Value.Empty)
    (fun w h => by injection h with h1; rw [← h1]; rfl)

/-- C2 counterexample: the source equality is not reflexive on the Empty
variant, refuting the claim that every Value equals itself; Empty against
Empty falls to the final false arm of the match. -/
theorem c2_empty_not_self_equal : valueEq Value.Empty Value.Empty = false := by
  simp [valueEq]

/-- C2 (amended): self-equality holds exactly for the variants the source
matches explicitly, with NaN-free numeric content: Bool, Str and Function
values, finite Numbers, Vec4s with four finite components, Refs of self-equal
content, and Lists and Maps all of whose members are self-equal; it fails for
Empty, Range, IndexRange, BuiltinFunction, BuiltinValue, For, While, and for
any Number or Vec4 holding NaN. -/
theorem c2_eq_self_characterization (v : Value) : valueEq v v = selfEqOK v :=
  valueEq_self v

/-- C3 counterexample: the matching-type check is not transparent through
nested Ref wrapping.  A doubly wrapped Number against a bare Number answers
false although the fully dereferenced shapes agree, refuting the
any-nesting-depth claim. -/
theorem c3_nested_ref_not_transparent :
    values_have_matching_type
      (Value.Ref (Value.Ref (Value.Number (KFloat.fin 1))))
      (Value.Number (KFloat.fin 2)) = false ∧
    discrim (specFullDeref (Value.Ref (Value.Ref (Value.Number (KFloat.fin 1))))) =
      discrim (specFullDeref (Value.Number (KFloat.fin 2))) :=
  ⟨rfl, rfl⟩

/-- C3 (amended): values_have_matching_type removes at most one Ref layer on
each side independently and then compares variant tags, ignoring payloads: a
single Ref wrapper on either or both sides does not affect the answer, and on
Ref-free arguments the answer is exactly agreement of the variant tags;
deeper nesting is not looked through. -/
theorem c3_matching_type_single_level (a b : Value)
    (ha : isRef a = false) (hb : isRef b = false) :
    values_have_matching_type a b = (discrim a == discrim b) ∧
    values_have_matching_type (Value.Ref a) b = values_have_matching_type a b ∧
    values_have_matching_type a (Value.Ref b) = values_have_matching_type a b ∧
    values_have_matching_type (Value.Ref a) (Value.Ref b) =
      values_have_matching_type a b := by
  cases a <;> cases b <;> simp_all [values_have_matching_type, isRef]

/-- Witness for the C3 theorem at a Number against a Str, both Ref-free; in
particular single-level wrapping leaves the spec example with a wrapped
Number intact. -/
theorem c3_matching_type_single_level_witness :
    values_have_matching_type (Value.Number (KFloat.fin 1)) (Value.Str "a") =
      (discrim (Value.Number (KFloat.fin 1)) == discrim (Value.Str "a")) ∧
    values_have_matching_type (Value.Ref (Value.Number (KFloat.fin 1))) (Value.Str "a") =
      values_have_matching_type (Value.Number (KFloat.fin 1)) (Value.Str "a") ∧
    values_have_matching_type (Value.Number (KFloat.fin 1)) (Value.Ref (Value.Str "a")) =
      values_have_matching_type (Value.Number (KFloat.fin 1)) (Value.Str "a") ∧
    values_have_matching_type (Value.Ref (Value.Number (KFloat.fin 1)))
        (Value.Ref (Value.Str "a")) =
      values_have_matching_type (Value.Number (KFloat.fin 1)) (Value.Str "a") :=
  c3_matching_type_single_level (Value.Number (KFloat.fin 1)) (Value.Str "a") rfl rfl

/-- C4 counterexample: the total-order comparison of two equal Vec4 values
hits the fatal unorderable branch of cmp (the Ord match has no Vec4 arm),
refuting the claim that both comparison forms delegate for Vec4. -/
theorem c4_vec4_total_cmp_fatal :
    valueCmpTotal
      (Value.Vec4 ⟨KFloat.fin 1, KFloat.fin 2, KFloat.fin 3, KFloat.fin 4⟩)
      (Value.Vec4 ⟨KFloat.fin 1, KFloat.fin 2, KFloat.fin 3, KFloat.fin 4⟩) =
    Except.error "cmp unsupported" := rfl

/-- C4 (amended): for every pair of Vec4 values the partial-order comparison
delegates to the componentwise order of the Vec4 library and never hits the
fatal branch, while the total-order comparison always hits the fatal
unorderable branch, because the Ord implementation only has Number and Str
arms. -/
theorem c4_vec4_order_split (a b : Vec4) :
    valueCmpOpt (Value.Vec4 a) (Value.Vec4 b) = Except.ok (vec4CmpOpt a b) ∧
    valueCmpTotal (Value.Vec4 a) (Value.Vec4 b) = Except.error "cmp unsupported" :=
  ⟨rfl, rfl⟩

/-- C5 counterexample: wrapping the non-Ref value Empty in one Ref cell does
not yield a value equal to Empty, because Empty is not equal to itself under
the source equality; this refutes the claim as stated for every non-Ref
value. -/
theorem c5_ref_empty_not_equal :
    valueEq (Value.Ref Value.Empty) Value.Empty = false := by
  simp [valueEq]

/-- C5 (amended): equality fully unwraps Ref wrappers on both sides — for all
values x, y and all depths n, m, the n-fold wrap of x equals the m-fold wrap
of y exactly when x equals y.  Hence a wrapped value equals its unwrapped
form exactly when that value is self-equal, which fails for values such as
Empty or NaN; and a pair of Refs compares the current cell contents. -/
theorem c5_ref_nest_transparent (n m : Nat) (x y : Value) :
    valueEq (refNest n x) (refNest m y) = valueEq x y := by
  induction n with
  | zero =>
    induction m with
    | zero => rfl
    | succ m ih =>
      show valueEq (refNest 0 x) (Value.Ref (refNest m y)) = valueEq x y
      rw [valueEq_ref_right]; exact ih
  | succ n ih =>
    show valueEq (Value.Ref (refNest n x)) (refNest m y) = valueEq x y
    rw [valueEq_ref_left]; exact ih

/-- C6 confirmed: the total-order comparator on Numbers resolves NaN
deterministically — NaN against NaN is Equal, NaN is Greater than every
finite value, every finite value is Less than NaN, and finite pairs follow
standard numeric comparison. -/
theorem c6_nan_total_order (q a b : ℚ) :
    valueCmpTotal (Value.Number KFloat.nan) (Value.Number KFloat.nan) =
      Except.ok Ordering.eq ∧
    valueCmpTotal (Value.Number KFloat.nan) (Value.Number (KFloat.fin q)) =
      Except.ok Ordering.gt ∧
    valueCmpTotal (Value.Number (KFloat.fin q)) (Value.Number KFloat.nan) =
      Except.ok Ordering.lt ∧
    (a < b → valueCmpTotal (Value.Number (KFloat.fin a)) (Value.Number (KFloat.fin b)) =
      Except.ok Ordering.lt) ∧
    (a = b → valueCmpTotal (Value.Number (KFloat.fin a)) (Value.Number (KFloat.fin b)) =
      Except.ok Ordering.eq) ∧
    (b < a → valueCmpTotal (Value.Number (KFloat.fin a)) (Value.Number (KFloat.fin b)) =
      Except.ok Ordering.gt) := by
  refine ⟨rfl, rfl, rfl, ?_, ?_, ?_⟩
  · intro h; simp [valueCmpTotal, nanTotalCmp, qcmp, h]
  · intro h; subst h; simp [valueCmpTotal, nanTotalCmp, qcmp]
  · intro h; simp [valueCmpTotal, nanTotalCmp, qcmp, lt_asymm h, ne_of_gt h]

/-- C7 confirmed: make_reference is idempotent with a correct creation flag —
a Ref input is returned unchanged with flag false, any other input is wrapped
in a Ref with flag true, the first component is always a Ref, and applying
make_reference to the first component of a previous make_reference always
reports flag false. -/
theorem c7_make_reference_idempotent (v : Value) :
    (make_reference (make_reference v).1).2 = false ∧
    isRef (make_reference v).1 = true ∧
    (isRef v = true → make_reference v = (v, false)) ∧
    (isRef v = false → make_reference v = (Value.Ref v, true)) := by
  cases v <;> simp [make_reference, isRef]

/-- C8 confirmed: whenever the variants of the two operands are not both
among Number, Vec4 and Str, both the partial-order and the total-order
comparison end in the fatal branch and return no comparison result. -/
theorem c8_unordered_comparison_fatal (a b : Value)
    (h : (isOrderedVariant a && isOrderedVariant b) = false) :
    (∃ e, valueCmpOpt a b = Except.error e) ∧
    (∃ e, valueCmpTotal a b = Except.error e) := by
  cases a <;> cases b <;>
    simp_all [isOrderedVariant, valueCmpOpt, valueCmpTotal]

/-- Witness for the C8 theorem at the concrete unordered pair of a Bool
against a Map. -/
theorem c8_unordered_comparison_fatal_witness :
    (∃ e, valueCmpOpt (Value.Bool true) (Value.Map []) = Except.error e) ∧
    (∃ e, valueCmpTotal (Value.Bool true) (Value.Map []) = Except.error e) :=
  c8_unordered_comparison_fatal (Value.Bool true) (Value.Map []) rfl

/-- C9 confirmed: meta_id_to_key fails with the missing-name error exactly on
the named-test id without a name, fails with the invalid-key error exactly on
the sentinel Invalid id, and succeeds on every other id whatever the optional
name; the named-test id with a name succeeds and carries the name. -/
theorem c9_meta_id_to_key_errors (id : MetaKeyId) (name : Option String) :
    meta_id_to_key MetaKeyId.Test none = Except.error "Missing name for test" ∧
    meta_id_to_key MetaKeyId.Invalid name = Except.error "Invalid MetaKeyId" ∧
    (∀ s, meta_id_to_key MetaKeyId.Test (some s) = Except.ok (MetaKey.Test s)) ∧
    ((∃ k, meta_id_to_key id name = Except.ok k) ↔
      id ≠ MetaKeyId.Invalid ∧ ¬(id = MetaKeyId.Test ∧ name = none)) := by
  refine ⟨rfl, ?_, fun s => rfl, ?_⟩
  · cases name <;> rfl
  · cases id <;> cases name <;> simp [meta_id_to_key]

/-- C10 confirmed: equality and the total order disagree on NaN — a NaN
Number does not equal itself (IEEE float equality), while the total-order
comparator declares the pair Equal. -/
theorem c10_nan_eq_vs_total_order :
    valueEq (Value.Number KFloat.nan) (Value.Number KFloat.nan) = false ∧
    valueCmpTotal (Value.Number KFloat.nan) (Value.Number KFloat.nan) =
      Except.ok Ordering.eq :=
  ⟨by simp [valueEq, feq], rfl⟩

end Koto
